import Mathlib

set_option maxRecDepth 100000

/-!
Verification of the gypsum-analysis service core (Go repository
`gypsum-analysis-api`).  The definitions below are a shallow embedding of
`internal/services` (the analysis service: orchestration, output parsing,
fallback estimation) and `internal/models` (the job record).  Go `float64`
values are modelled as exact rationals (`ℚ`); Go `int`/`int64` as `Int`
with explicit two's-complement wrapping where the source can overflow.
-/

/-- Status of an analysis job (`models.AnalysisStatus`).  The `pending`
constant is declared in the source but never assigned. -/
inductive AnalysisStatus where
  | pending
  | processing
  | completed
  | failed
deriving DecidableEq, Repr, Inhabited

/-- The job record (`models.AnalysisResult`).  `float64` fields are `ℚ`,
`time.Time` values are abstract `Nat` instants, `*time.Time` is
`Option Nat`, and Go zero values are the defaults used at creation. -/
structure AnalysisResult where
  ID : String
  Status : AnalysisStatus
  CreatedAt : Nat
  CompletedAt : Option Nat
  Error : String
  PurityPercentage : ℚ
  Confidence : ℚ
  ImagePath : String
  ImageSize : Int
  AnalysisTime : Int
  GypsumContent : ℚ
  ImpurityContent : ℚ
  CalciteContent : ℚ
  QuartzContent : ℚ
  OtherMinerals : ℚ
  ThresholdValue : ℚ
  ParticleCount : Int
  AverageParticleSize : ℚ
deriving DecidableEq, Repr, Inhabited

/-- Two's-complement wraparound of a signed 64-bit Go `int`. -/
def wrap64 (n : Int) : Int :=
  (n + 2 ^ 63) % 2 ^ 64 - 2 ^ 63

/-- One step of `hashString`'s loop body:
`hash = ((hash << 5) - hash) + int(char)` with 64-bit wraparound at each
operation.  The subsequent `hash = hash & hash` in the source is the
identity on a Go `int` and is kept as such here. -/
def hashStringStep (h : Int) (c : Char) : Int :=
  let shifted := wrap64 (h * 32)
  let hashed := wrap64 (wrap64 (shifted - h) + (c.toNat : Int))
  Int.land hashed hashed

/-- `hashString` (services): simple rolling hash over the runes of the
input, used to derive deterministic fallback values. -/
def hashString (input : String) : Int :=
  input.data.foldl hashStringStep 0

/-- `estimatePurityFromImage` (services): deterministic fallback purity
from the artifact size and path. -/
def estimatePurityFromImage (imageSize : Int) (imagePath : String) : ℚ :=
  let hash := hashString (toString imageSize ++ "-" ++ imagePath)
  let purity : ℚ := 60.0 + ((Int.tmod hash 35 : Int) : ℚ) * 1.0
  let purity := if 100000 < imageSize then purity + 5.0
    else if imageSize < 50000 then purity - 10.0 else purity
  let purity := if 95.0 < purity then 95.0 else purity
  let purity := if purity < 30.0 then 30.0 else purity
  purity

/-- `estimateParticleCount` (services): deterministic fallback particle
count from the artifact size (Go integer division truncates). -/
def estimateParticleCount (imageSize : Int) : Int :=
  let baseCount := Int.tdiv imageSize 2000
  let baseCount := if 100000 < imageSize then baseCount + 15
    else if imageSize < 50000 then baseCount - 10 else baseCount
  let baseCount := if baseCount < 5 then 5 else baseCount
  let baseCount := if 100 < baseCount then 100 else baseCount
  baseCount

/-- `estimateThreshold` (services): deterministic fallback threshold from
the artifact size (Go `%` truncates toward zero). -/
def estimateThreshold (imageSize : Int) : ℚ :=
  let baseThreshold : ℚ := 120.0 + ((Int.tmod imageSize 60 : Int) : ℚ) * 0.5
  let baseThreshold := if 100000 < imageSize then baseThreshold + 15.0
    else if imageSize < 50000 then baseThreshold - 20.0 else baseThreshold
  let baseThreshold := if 200.0 < baseThreshold then 200.0 else baseThreshold
  let baseThreshold := if baseThreshold < 80.0 then 80.0 else baseThreshold
  baseThreshold

/-- C6: the fallback estimators stay in their documented ranges — purity
in [30, 95], particle count in [5, 100], threshold in [80, 200] — and the
threshold depends on the artifact size only through its residue modulo the
fixed period 60 (within the same size bucket, here the large-artifact
bucket). -/
theorem fallback_estimator_ranges :
    (∀ (s : Int) (p : String),
      30 ≤ estimatePurityFromImage s p ∧ estimatePurityFromImage s p ≤ 95) ∧
    (∀ s : Int, 5 ≤ estimateParticleCount s ∧ estimateParticleCount s ≤ 100) ∧
    (∀ s : Int, 80 ≤ estimateThreshold s ∧ estimateThreshold s ≤ 200) ∧
    (∀ s t : Int, 100000 < s → 100000 < t → Int.tmod s 60 = Int.tmod t 60 →
      estimateThreshold s = estimateThreshold t) := by
  refine ⟨?_, ?_, ?_, ?_⟩
  · intro s p
    unfold estimatePurityFromImage
    simp only
    split_ifs <;> constructor <;> linarith
  · intro s
    unfold estimateParticleCount
    simp only
    split_ifs <;> constructor <;> omega
  · intro s
    unfold estimateThreshold
    simp only
    split_ifs <;> constructor <;> linarith
  · intro s t hs ht hmod
    unfold estimateThreshold
    simp only
    rw [hmod]
    simp only [if_pos hs, if_pos ht]

/-- C6 witness: concrete instantiation of the range and periodicity
statement. -/
theorem fallback_estimator_ranges_witness :
    (100000 < (100080 : Int) ∧ 100000 < (100140 : Int) ∧
      Int.tmod (100080 : Int) 60 = Int.tmod (100140 : Int) 60) ∧
    estimateThreshold 100080 = estimateThreshold 100140 :=
  ⟨⟨by decide, by decide, by decide⟩,
    fallback_estimator_ranges.2.2.2 100080 100140 (by decide) (by decide)
      (by decide)⟩

/-- C7: the fallback estimator is a pure deterministic function — two
calls with identical artifact size and path return identical purity,
particle count and threshold.  In the embedding this is immediate because
the source functions read nothing but their arguments. -/
theorem fallback_estimator_deterministic (s₁ s₂ : Int) (p₁ p₂ : String)
    (hs : s₁ = s₂) (hp : p₁ = p₂) :
    estimatePurityFromImage s₁ p₁ = estimatePurityFromImage s₂ p₂ ∧
    estimateParticleCount s₁ = estimateParticleCount s₂ ∧
    estimateThreshold s₁ = estimateThreshold s₂ := by
  subst hs; subst hp; exact ⟨rfl, rfl, rfl⟩

/-- C7 witness: concrete instantiation of determinism. -/
theorem fallback_estimator_deterministic_witness :
    ((123456 : Int) = 123456 ∧ "/tmp/a.png" = "/tmp/a.png") ∧
    (estimatePurityFromImage 123456 "/tmp/a.png" =
        estimatePurityFromImage 123456 "/tmp/a.png" ∧
      estimateParticleCount 123456 = estimateParticleCount 123456 ∧
      estimateThreshold 123456 = estimateThreshold 123456) :=
  ⟨⟨rfl, rfl⟩,
    fallback_estimator_deterministic 123456 123456 "/tmp/a.png" "/tmp/a.png"
      rfl rfl⟩

/-- Whitespace set of Go `strings.TrimSpace` (`unicode.IsSpace`); the rare
Unicode space code points above U+00A0 are not modelled. -/
def isGoSpace (c : Char) : Bool :=
  c == ' ' || c == '\t' || c == '\n' || c == '\x0b' || c == '\x0c' ||
    c == '\r' || c == '\x85' || c == '\xa0'

/-- Go `strings.TrimSpace` on a rune list. -/
def trimSpace (cs : List Char) : List Char :=
  ((cs.dropWhile isGoSpace).reverse.dropWhile isGoSpace).reverse

/-- Go `strings.Split(s, "\n")`: every line, empties preserved. -/
def splitLines : List Char → List (List Char)
  | [] => [[]]
  | c :: rest =>
    match splitLines rest with
    | [] => [[]]
    | l :: ls => if c = '\n' then [] :: l :: ls else (c :: l) :: ls

/-- Digit run to a natural number (most significant first). -/
def digitsToNat (ds : List Char) : Nat :=
  ds.foldl (fun n c => n * 10 + (c.toNat - 48)) 0

/-- Go `strconv.Atoi`: optional sign, a non-empty digit run, nothing else,
rejected outside the signed 64-bit range. -/
def parseGoInt (cs : List Char) : Option Int :=
  let signAndRest : Int × List Char :=
    match cs with
    | '+' :: r => (1, r)
    | '-' :: r => (-1, r)
    | r => (1, r)
  let sgn := signAndRest.1
  let rest := signAndRest.2
  if rest.isEmpty then none
  else if !(rest.all Char.isDigit) then none
  else
    let v : Int := sgn * (digitsToNat rest : Int)
    if v < -(2 ^ 63) ∨ 2 ^ 63 - 1 < v then none
    else some v

/-- Go `strconv.ParseFloat` on the decimal syntax, with the exact rational
value of the literal: optional sign, digits with an optional fraction part
(at least one digit overall), and an optional `e`/`E` exponent.  Hex
floats, `inf`/`nan`, underscore separators, rounding to binary `float64`
and the out-of-range errors are not modelled; rationals are exact and
unbounded. -/
def parseGoFloat (cs : List Char) : Option ℚ :=
  let signAndRest : ℚ × List Char :=
    match cs with
    | '+' :: r => (1, r)
    | '-' :: r => (-1, r)
    | r => (1, r)
  let sgn := signAndRest.1
  let rest := signAndRest.2
  let intDigits := rest.takeWhile Char.isDigit
  let afterInt := rest.drop intDigits.length
  let fracAndRest : List Char × List Char :=
    match afterInt with
    | '.' :: r => (r.takeWhile Char.isDigit, r.drop (r.takeWhile Char.isDigit).length)
    | _ => ([], afterInt)
  let fracDigits := fracAndRest.1
  let afterFrac := fracAndRest.2
  if intDigits.isEmpty ∧ fracDigits.isEmpty then none
  else
    let mant : ℚ := sgn *
      ((digitsToNat intDigits * 10 ^ fracDigits.length + digitsToNat fracDigits : Nat) : ℚ) /
      ((10 : ℚ) ^ fracDigits.length)
    match afterFrac with
    | [] => some mant
    | c :: r =>
      if c = 'e' ∨ c = 'E' then
        let expSignAndRest : Int × List Char :=
          match r with
          | '+' :: rr => (1, rr)
          | '-' :: rr => (-1, rr)
          | rr => (1, rr)
        let esgn := expSignAndRest.1
        let r2 := expSignAndRest.2
        let expDigits := r2.takeWhile Char.isDigit
        if expDigits.isEmpty then none
        else if !(r2.drop expDigits.length).isEmpty then none
        else some (mant * (10 : ℚ) ^ (esgn * (digitsToNat expDigits : Int)))
      else none

/-- Partial metric set produced by `parseFijiResults`' scan loop: the
`results` map (an association list whose lookup sees the most recent
write, matching the Go map) and the `particleCount` local (Go zero value
0 when no `particle_count` line parsed). -/
structure ParsedOutput where
  results : List (String × ℚ)
  particleCount : Int
deriving DecidableEq, Repr, Inhabited

/-- The sentinel opening token. -/
def resultsStartToken : List Char := "ANALYSIS_RESULTS_START".data

/-- The sentinel closing token. -/
def resultsEndToken : List Char := "ANALYSIS_RESULTS_END".data

/-- Body of the scan loop for one non-sentinel line while inside the
results span: `strings.Contains(line, ":")`, `strings.SplitN(line, ":", 2)`,
then `strconv.Atoi` for `particle_count` and `strconv.ParseFloat` for
every other key; a value that fails to parse leaves the state unchanged. -/
def parseResultLine (line : List Char) (st : ParsedOutput) : ParsedOutput :=
  if line.contains ':' then
    let key := line.takeWhile (fun c => !(c == ':'))
    let valueStr := (line.drop key.length).drop 1
    if key = "particle_count".data then
      match parseGoInt valueStr with
      | some count => { st with particleCount := count }
      | none => st
    else
      match parseGoFloat valueStr with
      | some value => { st with results := (String.mk key, value) :: st.results }
      | none => st
  else st

/-- The scan loop of `parseFijiResults` over already-trimmed lines:
a `ANALYSIS_RESULTS_START` line sets the `inResults` flag, the first
`ANALYSIS_RESULTS_END` line stops the loop (`break`), and other lines
contribute only while the flag is set. -/
def parseLoop : List (List Char) → Bool → ParsedOutput → ParsedOutput
  | [], _, st => st
  | line :: rest, inResults, st =>
    if line = resultsStartToken then parseLoop rest true st
    else if line = resultsEndToken then st
    else if inResults then parseLoop rest inResults (parseResultLine line st)
    else parseLoop rest inResults st

/-- Scanning half of `parseFijiResults` (services): split the combined
output on newlines, trim each line, and run the sentinel scan loop. -/
def parseFijiResults (output : String) : ParsedOutput :=
  parseLoop ((splitLines output.data).map trimSpace) false ⟨[], 0⟩

/-- `calculateConfidence` (services): base 0.5, bonuses for particle
count and for area coverage, then the upper clamp at 1.0. -/
def calculateConfidence (results : List (String × ℚ)) (particleCount : Int) : ℚ :=
  let confidence : ℚ := 0.5
  let confidence := if 10 < particleCount then confidence + 0.2 else confidence
  let confidence := if 50 < particleCount then confidence + 0.2 else confidence
  let totalArea := (results.lookup "total_area").getD 0
  let imageArea := (results.lookup "image_area").getD 0
  let confidence :=
    if 0 < totalArea ∧ 0 < imageArea then
      let coverage := totalArea / imageArea
      if 0.1 < coverage ∧ coverage < 0.9 then confidence + 0.1 else confidence
    else confidence
  if 1.0 < confidence then 1.0 else confidence

/-- Finalizing half of `parseFijiResults` (services): the record update
performed under the mutex — each metric keeps its parsed value when
present and strictly positive, otherwise falls back; then confidence and
the fixed-proportion secondary minerals. -/
def applyParsedResults (r : AnalysisResult) (p : ParsedOutput)
    (analysisTime : Int) : AnalysisResult :=
  let purity :=
    match p.results.lookup "purity_percentage" with
    | some v => if 0 < v then v else estimatePurityFromImage r.ImageSize r.ImagePath
    | none => estimatePurityFromImage r.ImageSize r.ImagePath
  let gypsum :=
    match p.results.lookup "gypsum_content" with
    | some v => if 0 < v then v else purity
    | none => purity
  let impurity :=
    match p.results.lookup "impurity_content" with
    | some v => if 0 < v then v else 100 - purity
    | none => 100 - purity
  let particles :=
    if 0 < p.particleCount then p.particleCount
    else estimateParticleCount r.ImageSize
  let threshold :=
    match p.results.lookup "threshold_value" with
    | some v => if 0 < v then v else estimateThreshold r.ImageSize
    | none => estimateThreshold r.ImageSize
  { r with
    PurityPercentage := purity
    GypsumContent := gypsum
    ImpurityContent := impurity
    ParticleCount := particles
    ThresholdValue := threshold
    AnalysisTime := analysisTime
    Confidence := calculateConfidence p.results p.particleCount
    CalciteContent := impurity * 0.3
    QuartzContent := impurity * 0.2
    OtherMinerals := impurity * 0.5 }

/-- `updateResultWithError` (services): mark the stored record failed,
record the message, and stamp `CompletedAt` with the current time. -/
def updateResultWithError (r : AnalysisResult) (errorMsg : String)
    (now : Nat) : AnalysisResult :=
  { r with Status := .failed, Error := errorMsg, CompletedAt := some now }

/-- Go `filepath.Ext`: the suffix of the last path element starting at
its final dot, empty when there is no dot. -/
def filepathExt (fileName : String) : String :=
  let rev := fileName.data.reverse
  let beforeDot := rev.takeWhile (fun c => !(c == '.') && !(c == '/'))
  match rev.drop beforeDot.length with
  | '.' :: _ => String.mk ('.' :: beforeDot.reverse)
  | _ => ""

/-- Go `filepath.Join` on two components, modelled as separator
concatenation (path cleaning is not modelled). -/
def filepathJoin (dir name : String) : String :=
  dir ++ "/" ++ name

/-- Abstract environment of one `AnalyzeGypsumImage` run: the outcomes of
the file save, the macro write and the external Fiji process, the
captured combined output, the measured elapsed milliseconds, and the
`time.Now()` instants observed at each call site. -/
structure RunEnv where
  saveErr : Option String
  macroErr : Option String
  fijiErr : Option String
  fijiOutput : String
  analysisTime : Int
  tCreate : Nat
  tErr1 : Nat
  tErr2 : Nat
  tComplete : Nat
deriving DecidableEq, Repr, Inhabited

/-- The initial job record stored by `AnalyzeGypsumImage`: status
processing, creation time and size set, every other field its Go zero
value. -/
def initialResult (env : RunEnv) (analysisID : String) (fileSize : Int) :
    AnalysisResult :=
  { ID := analysisID
    Status := .processing
    CreatedAt := env.tCreate
    CompletedAt := none
    Error := ""
    PurityPercentage := 0
    Confidence := 0
    ImagePath := ""
    ImageSize := fileSize
    AnalysisTime := 0
    GypsumContent := 0
    ImpurityContent := 0
    CalciteContent := 0
    QuartzContent := 0
    OtherMinerals := 0
    ThresholdValue := 0
    ParticleCount := 0
    AverageParticleSize := 0 }

/-- `AnalyzeGypsumImage` together with `performFijiAnalysis` (services),
as the ordered sequence of job-record states written to the store: the
initial insert; the `ImagePath` update after a successful save; then,
per branch, the error update on save failure, the single wrapped error
update on macro-write failure, the two successive error updates on Fiji
failure (`performFijiAnalysis` records `Fiji execution failed: …`,
returns the error, and `AnalyzeGypsumImage` records it again wrapped in
`Analysis failed: …`), or the parsed-metrics update followed by the
completion update. -/
def AnalyzeGypsumImageTrace (env : RunEnv) (analysisID : String)
    (fileSize : Int) (fileName tempDir : String) : List AnalysisResult :=
  let r0 := initialResult env analysisID fileSize
  match env.saveErr with
  | some msg =>
    [r0, updateResultWithError r0 ("Failed to save uploaded file: " ++ msg) env.tErr1]
  | none =>
    let imagePath := filepathJoin tempDir (analysisID ++ filepathExt fileName)
    let r1 := { r0 with ImagePath := imagePath }
    match env.macroErr with
    | some msg =>
      [r0, r1,
        updateResultWithError r1
          ("Analysis failed: failed to create analysis macro: " ++ msg) env.tErr1]
    | none =>
      match env.fijiErr with
      | some msg =>
        let r2 := updateResultWithError r1 ("Fiji execution failed: " ++ msg) env.tErr1
        [r0, r1, r2,
          updateResultWithError r2
            ("Analysis failed: Fiji execution failed: " ++ msg) env.tErr2]
      | none =>
        let r2 := applyParsedResults r1 (parseFijiResults env.fijiOutput) env.analysisTime
        [r0, r1, r2,
          { r2 with
            Status := .completed
            CompletedAt := some env.tComplete
            AnalysisTime := env.analysisTime }]

/-- The job record visible once the run has finished: the last state of
the trace. -/
def AnalyzeGypsumImageFinal (env : RunEnv) (analysisID : String)
    (fileSize : Int) (fileName tempDir : String) : AnalysisResult :=
  (AnalyzeGypsumImageTrace env analysisID fileSize fileName tempDir).getLastD
    (initialResult env analysisID fileSize)

example :
    (parseFijiResults
      "noise\nANALYSIS_RESULTS_START\npurity_percentage:85.5\nparticle_count:45\nANALYSIS_RESULTS_END\ntail").results.lookup
        "purity_percentage" = some (171 / 2) := by with_unfolding_all decide

example :
    (parseFijiResults
      "noise\nANALYSIS_RESULTS_START\npurity_percentage:85.5\nparticle_count:45\nANALYSIS_RESULTS_END\ntail").particleCount = 45 := by with_unfolding_all decide

example : parseGoFloat "1.25e2".data = some 125 := by with_unfolding_all decide

example : parseGoFloat "bad7".data = none := by with_unfolding_all decide

/-- Modelled from the spec (§4.3 confidence scoring), word for word: start
from a base score of 0.5; add 0.2 if particle count > 10, a further 0.2 if
particle count > 50; add 0.1 if the ratio of reported covered area to
total image area falls strictly between 0.1 and 0.9; clamp to [0, 1].
Reported areas are read from the parsed set as the code does (a missing
key reads as 0, and in `ℚ` division by 0 yields 0). -/
def specConfidence (results : List (String × ℚ)) (particleCount : Int) : ℚ :=
  let totalArea := (results.lookup "total_area").getD 0
  let imageArea := (results.lookup "image_area").getD 0
  let coverage := totalArea / imageArea
  let score : ℚ := 0.5
    + (if 10 < particleCount then 0.2 else 0)
    + (if 50 < particleCount then 0.2 else 0)
    + (if 0.1 < coverage ∧ coverage < 0.9 then 0.1 else 0)
  max 0 (min 1 score)

/-- The spec's confidence formula amended with the positivity guard the
code actually applies: the coverage bonus additionally requires both
reported areas to be strictly positive. -/
def specConfidenceAmended (results : List (String × ℚ)) (particleCount : Int) : ℚ :=
  let totalArea := (results.lookup "total_area").getD 0
  let imageArea := (results.lookup "image_area").getD 0
  let coverage := totalArea / imageArea
  let score : ℚ := 0.5
    + (if 10 < particleCount then 0.2 else 0)
    + (if 50 < particleCount then 0.2 else 0)
    + (if 0 < totalArea ∧ 0 < imageArea ∧ 0.1 < coverage ∧ coverage < 0.9
        then 0.1 else 0)
  max 0 (min 1 score)

/-- C4 counterexample: with reported areas −1 and −2 the coverage ratio
is 1/2, strictly between 0.1 and 0.9, so the claimed formula awards the
0.1 bonus (total 1.0 at particle count 60), but the code's positivity
guard withholds it (total 0.9). -/
theorem confidence_formula_counterexample :
    calculateConfidence [("total_area", -1), ("image_area", -2)] 60 ≠
      specConfidence [("total_area", -1), ("image_area", -2)] 60 ∧
    calculateConfidence [("total_area", -1), ("image_area", -2)] 60 = 9 / 10 := by
  constructor
  · with_unfolding_all decide
  · with_unfolding_all decide

/-- C4 amended: the confidence score equals base 0.5, plus 0.2 if the
particle count exceeds 10, plus 0.2 more if it exceeds 50, plus 0.1 if
both reported areas are strictly positive and their ratio is strictly
between 0.1 and 0.9, clamped to [0, 1]; and particle count 60 with
coverage ratio 0.5 (on positive areas) yields exactly 1.0. -/
theorem confidence_formula_amended :
    (∀ (results : List (String × ℚ)) (particleCount : Int),
      calculateConfidence results particleCount =
        specConfidenceAmended results particleCount) ∧
    calculateConfidence [("total_area", 1), ("image_area", 2)] 60 = 1 := by
  constructor
  · intro results particleCount
    unfold calculateConfidence specConfidenceAmended
    simp only
    split_ifs <;>
      solve
        | norm_num
        | omega
        | tauto
        | (exfalso; norm_num at *)
  · with_unfolding_all decide

/-- Lower and upper bound of `calculateConfidence` for every input: the
base 0.5 only ever grows, and the final clamp caps it at 1. -/
theorem calculateConfidence_bounds (results : List (String × ℚ))
    (particleCount : Int) :
    1 / 2 ≤ calculateConfidence results particleCount ∧
      calculateConfidence results particleCount ≤ 1 := by
  unfold calculateConfidence
  simp only
  split_ifs <;> constructor <;> norm_num

/-- The final record of a fully successful run (save, macro write and
Fiji all succeed), written out as parse-then-finalize followed by the
completion update. -/
def successFinal (env : RunEnv) (analysisID : String) (fileSize : Int)
    (fileName tempDir : String) : AnalysisResult :=
  { applyParsedResults
      { initialResult env analysisID fileSize with
          ImagePath := filepathJoin tempDir (analysisID ++ filepathExt fileName) }
      (parseFijiResults env.fijiOutput) env.analysisTime with
    Status := .completed
    CompletedAt := some env.tComplete
    AnalysisTime := env.analysisTime }

/-- On the all-success path the run's final record is `successFinal`. -/
theorem final_of_success (env : RunEnv) (analysisID : String) (fileSize : Int)
    (fileName tempDir : String) (h1 : env.saveErr = none)
    (h2 : env.macroErr = none) (h3 : env.fijiErr = none) :
    AnalyzeGypsumImageFinal env analysisID fileSize fileName tempDir =
      successFinal env analysisID fileSize fileName tempDir := by
  unfold AnalyzeGypsumImageFinal AnalyzeGypsumImageTrace successFinal
  rw [h1, h2, h3]
  rfl

/-- A run that reaches a completed final record had no save, macro or
Fiji failure. -/
theorem completed_implies_success (env : RunEnv) (analysisID : String)
    (fileSize : Int) (fileName tempDir : String)
    (hc : (AnalyzeGypsumImageFinal env analysisID fileSize fileName tempDir).Status =
      AnalysisStatus.completed) :
    env.saveErr = none ∧ env.macroErr = none ∧ env.fijiErr = none := by
  obtain ⟨se, me, fe, out, at0, tc, te1, te2, tcm⟩ := env
  cases se with
  | some m =>
    simp [AnalyzeGypsumImageFinal, AnalyzeGypsumImageTrace,
      updateResultWithError, List.getLastD] at hc
  | none =>
    cases me with
    | some m =>
      simp [AnalyzeGypsumImageFinal, AnalyzeGypsumImageTrace,
        updateResultWithError, List.getLastD] at hc
    | none =>
      cases fe with
      | some m =>
        simp [AnalyzeGypsumImageFinal, AnalyzeGypsumImageTrace,
          updateResultWithError, List.getLastD] at hc
      | none => exact ⟨rfl, rfl, rfl⟩

/-- C9: every job that reaches Completed records a confidence of at least
the base 0.5 and at most 1, whatever the external process printed. -/
theorem completed_confidence_in_range (env : RunEnv) (analysisID : String)
    (fileSize : Int) (fileName tempDir : String)
    (hc : (AnalyzeGypsumImageFinal env analysisID fileSize fileName tempDir).Status =
      AnalysisStatus.completed) :
    1 / 2 ≤ (AnalyzeGypsumImageFinal env analysisID fileSize fileName tempDir).Confidence ∧
      (AnalyzeGypsumImageFinal env analysisID fileSize fileName tempDir).Confidence ≤ 1 := by
  obtain ⟨h1, h2, h3⟩ :=
    completed_implies_success env analysisID fileSize fileName tempDir hc
  rw [final_of_success env analysisID fileSize fileName tempDir h1 h2 h3]
  unfold successFinal applyParsedResults
  simp only
  exact calculateConfidence_bounds _ _

/-- Environment of a fully successful run with a well-formed sentinel
block on the process output, used to instantiate the completed-path
theorems. -/
def okEnv : RunEnv :=
  { saveErr := none
    macroErr := none
    fijiErr := none
    fijiOutput := "ANALYSIS_RESULTS_START\npurity_percentage:85.5\ngypsum_content:83.3\nimpurity_content:16.7\nparticle_count:45\ntotal_area:125000\nimage_area:150000\nthreshold_value:128.5\nANALYSIS_RESULTS_END"
    analysisTime := 1234
    tCreate := 10
    tErr1 := 20
    tErr2 := 30
    tComplete := 40 }

/-- C9 witness: the confidence bounds instantiated on a concrete
successful run. -/
theorem completed_confidence_in_range_witness :
    (AnalyzeGypsumImageFinal okEnv "job-1" 120000 "sample.png" "/tmp/gy").Status =
      AnalysisStatus.completed ∧
    (1 / 2 ≤ (AnalyzeGypsumImageFinal okEnv "job-1" 120000 "sample.png" "/tmp/gy").Confidence ∧
      (AnalyzeGypsumImageFinal okEnv "job-1" 120000 "sample.png" "/tmp/gy").Confidence ≤ 1) :=
  ⟨rfl, completed_confidence_in_range okEnv "job-1" 120000 "sample.png" "/tmp/gy" rfl⟩

/-- C10: on every completed job the secondary minerals are the fixed
proportions 0.3, 0.2 and 0.5 of the impurity content, so they sum to the
impurity content exactly. -/
theorem completed_minerals_proportions (env : RunEnv) (analysisID : String)
    (fileSize : Int) (fileName tempDir : String)
    (hc : (AnalyzeGypsumImageFinal env analysisID fileSize fileName tempDir).Status =
      AnalysisStatus.completed) :
    (AnalyzeGypsumImageFinal env analysisID fileSize fileName tempDir).CalciteContent =
      (AnalyzeGypsumImageFinal env analysisID fileSize fileName tempDir).ImpurityContent * 0.3 ∧
    (AnalyzeGypsumImageFinal env analysisID fileSize fileName tempDir).QuartzContent =
      (AnalyzeGypsumImageFinal env analysisID fileSize fileName tempDir).ImpurityContent * 0.2 ∧
    (AnalyzeGypsumImageFinal env analysisID fileSize fileName tempDir).OtherMinerals =
      (AnalyzeGypsumImageFinal env analysisID fileSize fileName tempDir).ImpurityContent * 0.5 ∧
    (AnalyzeGypsumImageFinal env analysisID fileSize fileName tempDir).CalciteContent +
        (AnalyzeGypsumImageFinal env analysisID fileSize fileName tempDir).QuartzContent +
        (AnalyzeGypsumImageFinal env analysisID fileSize fileName tempDir).OtherMinerals =
      (AnalyzeGypsumImageFinal env analysisID fileSize fileName tempDir).ImpurityContent := by
  obtain ⟨h1, h2, h3⟩ :=
    completed_implies_success env analysisID fileSize fileName tempDir hc
  rw [final_of_success env analysisID fileSize fileName tempDir h1 h2 h3]
  unfold successFinal applyParsedResults
  simp only
  refine ⟨trivial, trivial, trivial, ?_⟩
  ring

/-- C10 witness: the fixed-proportion relations instantiated on a
concrete successful run. -/
theorem completed_minerals_proportions_witness :
    (AnalyzeGypsumImageFinal okEnv "job-2" 120000 "sample.png" "/tmp/gy").Status =
      AnalysisStatus.completed ∧
    (AnalyzeGypsumImageFinal okEnv "job-2" 120000 "sample.png" "/tmp/gy").CalciteContent +
        (AnalyzeGypsumImageFinal okEnv "job-2" 120000 "sample.png" "/tmp/gy").QuartzContent +
        (AnalyzeGypsumImageFinal okEnv "job-2" 120000 "sample.png" "/tmp/gy").OtherMinerals =
      (AnalyzeGypsumImageFinal okEnv "job-2" 120000 "sample.png" "/tmp/gy").ImpurityContent :=
  ⟨rfl,
    (completed_minerals_proportions okEnv "job-2" 120000 "sample.png" "/tmp/gy"
      rfl).2.2.2⟩

/-- C5: during finalization of a successful run, each of purity, particle
count and threshold keeps the parsed value exactly when it is present and
strictly positive, and is otherwise replaced by the corresponding
fallback-estimator value derived from the job's artifact size and stored
path. -/
theorem finalize_metric_selection (env : RunEnv) (analysisID : String)
    (fileSize : Int) (fileName tempDir : String) (h1 : env.saveErr = none)
    (h2 : env.macroErr = none) (h3 : env.fijiErr = none) :
    (∀ v : ℚ,
      (parseFijiResults env.fijiOutput).results.lookup "purity_percentage" = some v →
      0 < v →
      (AnalyzeGypsumImageFinal env analysisID fileSize fileName tempDir).PurityPercentage = v) ∧
    ((parseFijiResults env.fijiOutput).results.lookup "purity_percentage" = none ∨
      (∃ v : ℚ,
        (parseFijiResults env.fijiOutput).results.lookup "purity_percentage" = some v ∧
        ¬0 < v) →
      (AnalyzeGypsumImageFinal env analysisID fileSize fileName tempDir).PurityPercentage =
        estimatePurityFromImage fileSize
          (filepathJoin tempDir (analysisID ++ filepathExt fileName))) ∧
    (0 < (parseFijiResults env.fijiOutput).particleCount →
      (AnalyzeGypsumImageFinal env analysisID fileSize fileName tempDir).ParticleCount =
        (parseFijiResults env.fijiOutput).particleCount) ∧
    (¬0 < (parseFijiResults env.fijiOutput).particleCount →
      (AnalyzeGypsumImageFinal env analysisID fileSize fileName tempDir).ParticleCount =
        estimateParticleCount fileSize) ∧
    (∀ v : ℚ,
      (parseFijiResults env.fijiOutput).results.lookup "threshold_value" = some v →
      0 < v →
      (AnalyzeGypsumImageFinal env analysisID fileSize fileName tempDir).ThresholdValue = v) ∧
    ((parseFijiResults env.fijiOutput).results.lookup "threshold_value" = none ∨
      (∃ v : ℚ,
        (parseFijiResults env.fijiOutput).results.lookup "threshold_value" = some v ∧
        ¬0 < v) →
      (AnalyzeGypsumImageFinal env analysisID fileSize fileName tempDir).ThresholdValue =
        estimateThreshold fileSize) := by
  rw [final_of_success env analysisID fileSize fileName tempDir h1 h2 h3]
  unfold successFinal applyParsedResults
  simp only
  refine ⟨?_, ?_, ?_, ?_, ?_, ?_⟩
  · intro v hl hv
    rw [hl]
    simp [hv]
  · rintro (hl | ⟨v, hl, hv⟩)
    · rw [hl]
      rfl
    · rw [hl]
      simp [hv, initialResult]
  · intro hp
    simp [hp, initialResult]
  · intro hp
    simp [hp, initialResult]
  · intro v hl hv
    rw [hl]
    simp [hv]
  · rintro (hl | ⟨v, hl, hv⟩)
    · rw [hl]
      rfl
    · rw [hl]
      simp [hv, initialResult]

/-- C5 witness: on the concrete successful run the parsed purity 85.5 is
positive and is recorded unchanged. -/
theorem finalize_metric_selection_witness :
    ((okEnv.saveErr = none ∧ okEnv.macroErr = none ∧ okEnv.fijiErr = none) ∧
      (parseFijiResults okEnv.fijiOutput).results.lookup "purity_percentage" =
        some (171 / 2) ∧
      (0 : ℚ) < 171 / 2) ∧
    (AnalyzeGypsumImageFinal okEnv "job-7" 120000 "sample.png" "/tmp/gy").PurityPercentage =
      171 / 2 :=
  ⟨⟨⟨rfl, rfl, rfl⟩, by with_unfolding_all decide, by norm_num⟩,
    (finalize_metric_selection okEnv "job-7" 120000 "sample.png" "/tmp/gy"
      rfl rfl rfl).1 (171 / 2) (by with_unfolding_all decide) (by norm_num)⟩

/-- When no trimmed line equals the opening sentinel, the scan loop in its
initial (flag down) state contributes nothing: the first closing sentinel
merely stops it and every other line is skipped. -/
theorem parseLoop_no_start (ls : List (List Char)) (st : ParsedOutput)
    (h : resultsStartToken ∉ ls) : parseLoop ls false st = st := by
  induction ls with
  | nil => rfl
  | cons l rest ih =>
    have hl : ¬l = resultsStartToken := fun e => h (e ▸ List.mem_cons_self l rest)
    rw [parseLoop, if_neg hl]
    by_cases he : l = resultsEndToken
    · rw [if_pos he]
    · rw [if_neg he]
      simp only [Bool.false_eq_true, if_false]
      exact ih fun hm => h (List.mem_cons_of_mem l hm)

/-- C3: when the process output contains no `ANALYSIS_RESULTS_START` line
the parsed metric set is empty, parsing does not fail the run, and the
job completes (status Completed) with purity, particle count and
threshold all taken from the fallback estimators. -/
theorem no_start_line_completes_with_fallback (env : RunEnv)
    (analysisID : String) (fileSize : Int) (fileName tempDir : String)
    (h1 : env.saveErr = none) (h2 : env.macroErr = none)
    (h3 : env.fijiErr = none)
    (hns : resultsStartToken ∉ (splitLines env.fijiOutput.data).map trimSpace) :
    (parseFijiResults env.fijiOutput).results = [] ∧
    (parseFijiResults env.fijiOutput).particleCount = 0 ∧
    (AnalyzeGypsumImageFinal env analysisID fileSize fileName tempDir).Status =
      AnalysisStatus.completed ∧
    (AnalyzeGypsumImageFinal env analysisID fileSize fileName tempDir).PurityPercentage =
      estimatePurityFromImage fileSize
        (filepathJoin tempDir (analysisID ++ filepathExt fileName)) ∧
    (AnalyzeGypsumImageFinal env analysisID fileSize fileName tempDir).ParticleCount =
      estimateParticleCount fileSize ∧
    (AnalyzeGypsumImageFinal env analysisID fileSize fileName tempDir).ThresholdValue =
      estimateThreshold fileSize := by
  have hp : parseFijiResults env.fijiOutput = ⟨[], 0⟩ := by
    unfold parseFijiResults
    exact parseLoop_no_start _ _ hns
  rw [final_of_success env analysisID fileSize fileName tempDir h1 h2 h3]
  unfold successFinal applyParsedResults
  rw [hp]
  simp [initialResult]

/-- Environment of a run whose process exits cleanly but prints no
sentinel block at all. -/
def garbledEnv : RunEnv :=
  { saveErr := none
    macroErr := none
    fijiErr := none
    fijiOutput := "Java HotSpot warning\nno results today\nbye"
    analysisTime := 77
    tCreate := 10
    tErr1 := 20
    tErr2 := 30
    tComplete := 40 }

/-- C3 witness: on a concrete sentinel-free output the job completes and
all three metrics come from the fallback estimators. -/
theorem no_start_line_completes_with_fallback_witness :
    ((garbledEnv.saveErr = none ∧ garbledEnv.macroErr = none ∧
        garbledEnv.fijiErr = none) ∧
      resultsStartToken ∉ (splitLines garbledEnv.fijiOutput.data).map trimSpace) ∧
    ((parseFijiResults garbledEnv.fijiOutput).results = [] ∧
      (parseFijiResults garbledEnv.fijiOutput).particleCount = 0 ∧
      (AnalyzeGypsumImageFinal garbledEnv "job-8" 40000 "sample.png" "/tmp/gy").Status =
        AnalysisStatus.completed ∧
      (AnalyzeGypsumImageFinal garbledEnv "job-8" 40000 "sample.png" "/tmp/gy").PurityPercentage =
        estimatePurityFromImage 40000
          (filepathJoin "/tmp/gy" ("job-8" ++ filepathExt "sample.png")) ∧
      (AnalyzeGypsumImageFinal garbledEnv "job-8" 40000 "sample.png" "/tmp/gy").ParticleCount =
        estimateParticleCount 40000 ∧
      (AnalyzeGypsumImageFinal garbledEnv "job-8" 40000 "sample.png" "/tmp/gy").ThresholdValue =
        estimateThreshold 40000) :=
  ⟨⟨⟨rfl, rfl, rfl⟩, by with_unfolding_all decide⟩,
    no_start_line_completes_with_fallback garbledEnv "job-8" 40000 "sample.png"
      "/tmp/gy" rfl rfl rfl (by with_unfolding_all decide)⟩

/-- Whether `needle` starts the list `hay`. -/
def startsWithChars : List Char → List Char → Bool
  | _, [] => true
  | [], _ :: _ => false
  | h :: hs, n :: ns => h == n && startsWithChars hs ns

/-- Whether `needle` occurs contiguously inside `hay`. -/
def hasSubChars : List Char → List Char → Bool
  | [], needle => needle.isEmpty
  | c :: rest, needle =>
    startsWithChars (c :: rest) needle || hasSubChars rest needle

/-- Whether `needle` is a contiguous substring of `hay`. -/
def strContainsStr (hay needle : String) : Bool :=
  hasSubChars hay.data needle.data

/-- Environment of a run whose external process fails (non-zero exit)
after printing some diagnostic output. -/
def fijiFailEnv : RunEnv :=
  { saveErr := none
    macroErr := none
    fijiErr := some "exit status 1"
    fijiOutput := "PANIC: java heap exhausted"
    analysisTime := 0
    tCreate := 10
    tErr1 := 20
    tErr2 := 30
    tComplete := 40 }

/-- C1 counterexample: a failed Fiji run transitions the job to Failed,
but the recorded error detail does not contain the process's captured
combined output (here `PANIC: java heap exhausted`); it only wraps the Go
error description. -/
theorem fiji_failure_error_detail_counterexample :
    (AnalyzeGypsumImageFinal fijiFailEnv "job-3" 1000 "a.png" "/tmp/gy").Status =
      AnalysisStatus.failed ∧
    strContainsStr
      (AnalyzeGypsumImageFinal fijiFailEnv "job-3" 1000 "a.png" "/tmp/gy").Error
      fijiFailEnv.fijiOutput = false ∧
    (AnalyzeGypsumImageFinal fijiFailEnv "job-3" 1000 "a.png" "/tmp/gy").Error =
      "Analysis failed: Fiji execution failed: exit status 1" := by
  refine ⟨rfl, ?_, rfl⟩
  with_unfolding_all decide

/-- C1 amended: when the external process fails, the job does transition
to Failed, but the recorded error detail is the doubly wrapped Go error
description (`Analysis failed: Fiji execution failed: <err>`), not the
captured combined output text, which is discarded. -/
theorem fiji_failure_error_detail_amended (env : RunEnv) (analysisID : String)
    (fileSize : Int) (fileName tempDir : String) (msg : String)
    (h1 : env.saveErr = none) (h2 : env.macroErr = none)
    (h3 : env.fijiErr = some msg) :
    (AnalyzeGypsumImageFinal env analysisID fileSize fileName tempDir).Status =
      AnalysisStatus.failed ∧
    (AnalyzeGypsumImageFinal env analysisID fileSize fileName tempDir).Error =
      "Analysis failed: Fiji execution failed: " ++ msg := by
  unfold AnalyzeGypsumImageFinal AnalyzeGypsumImageTrace
  rw [h1, h2, h3]
  exact ⟨rfl, rfl⟩

/-- C1 witness: the amended statement instantiated on the concrete failed
run. -/
theorem fiji_failure_error_detail_amended_witness :
    (fijiFailEnv.saveErr = none ∧ fijiFailEnv.macroErr = none ∧
      fijiFailEnv.fijiErr = some "exit status 1") ∧
    ((AnalyzeGypsumImageFinal fijiFailEnv "job-4" 1000 "a.png" "/tmp/gy").Status =
        AnalysisStatus.failed ∧
      (AnalyzeGypsumImageFinal fijiFailEnv "job-4" 1000 "a.png" "/tmp/gy").Error =
        "Analysis failed: Fiji execution failed: " ++ "exit status 1") :=
  ⟨⟨rfl, rfl, rfl⟩,
    fiji_failure_error_detail_amended fijiFailEnv "job-4" 1000 "a.png" "/tmp/gy"
      "exit status 1" rfl rfl rfl⟩

/-- C8 counterexample: on the Fiji-failure path the stored record is
written twice after reaching the terminal Failed state — the third trace
entry is already Failed with `CompletedAt` 20, yet the fourth write
mutates it again (rewrapped error, `CompletedAt` overwritten to 30), so
`completedAt` is not set exactly once and a terminal record is mutated
again. -/
theorem terminal_record_mutated_counterexample :
    ((AnalyzeGypsumImageTrace fijiFailEnv "job-5" 1000 "a.png" "/tmp/gy").get? 2).map
        AnalysisResult.Status = some AnalysisStatus.failed ∧
    ((AnalyzeGypsumImageTrace fijiFailEnv "job-5" 1000 "a.png" "/tmp/gy").get? 2).map
        AnalysisResult.CompletedAt = some (some 20) ∧
    ((AnalyzeGypsumImageTrace fijiFailEnv "job-5" 1000 "a.png" "/tmp/gy").get? 3).map
        AnalysisResult.CompletedAt = some (some 30) ∧
    (AnalyzeGypsumImageTrace fijiFailEnv "job-5" 1000 "a.png" "/tmp/gy").get? 2 ≠
      (AnalyzeGypsumImageTrace fijiFailEnv "job-5" 1000 "a.png" "/tmp/gy").get? 3 := by
  refine ⟨rfl, rfl, rfl, ?_⟩
  with_unfolding_all decide

/-- C8 amended: at every observable state of every run, `CompletedAt` is
set if and only if the status is Completed or Failed (the surviving half
of the claim; the exactly-once half fails on the Fiji-failure path). -/
theorem completedAt_iff_terminal (env : RunEnv) (analysisID : String)
    (fileSize : Int) (fileName tempDir : String) (r : AnalysisResult)
    (hr : r ∈ AnalyzeGypsumImageTrace env analysisID fileSize fileName tempDir) :
    r.CompletedAt ≠ none ↔
      (r.Status = AnalysisStatus.completed ∨ r.Status = AnalysisStatus.failed) := by
  obtain ⟨se, me, fe, out, at0, tc, te1, te2, tcm⟩ := env
  cases se with
  | some m =>
    simp only [AnalyzeGypsumImageTrace, List.mem_cons, List.mem_singleton,
      List.not_mem_nil, or_false] at hr
    rcases hr with h | h <;> subst h <;>
      simp [initialResult, updateResultWithError]
  | none =>
    cases me with
    | some m =>
      simp only [AnalyzeGypsumImageTrace, List.mem_cons, List.mem_singleton,
        List.not_mem_nil, or_false] at hr
      rcases hr with h | h | h <;> subst h <;>
        simp [initialResult, updateResultWithError]
    | none =>
      cases fe with
      | some m =>
        simp only [AnalyzeGypsumImageTrace, List.mem_cons, List.mem_singleton,
          List.not_mem_nil, or_false] at hr
        rcases hr with h | h | h | h <;> subst h <;>
          simp [initialResult, updateResultWithError]
      | none =>
        simp only [AnalyzeGypsumImageTrace, List.mem_cons, List.mem_singleton,
          List.not_mem_nil, or_false] at hr
        rcases hr with h | h | h | h <;> subst h <;>
          simp [initialResult, updateResultWithError, applyParsedResults]

/-- C8 amended witness: the invariant instantiated at the initial record
of a concrete run. -/
theorem completedAt_iff_terminal_witness :
    initialResult fijiFailEnv "job-6" 1000 ∈
      AnalyzeGypsumImageTrace fijiFailEnv "job-6" 1000 "a.png" "/tmp/gy" ∧
    ((initialResult fijiFailEnv "job-6" 1000).CompletedAt ≠ none ↔
      ((initialResult fijiFailEnv "job-6" 1000).Status = AnalysisStatus.completed ∨
        (initialResult fijiFailEnv "job-6" 1000).Status = AnalysisStatus.failed)) :=
  ⟨by with_unfolding_all decide,
    completedAt_iff_terminal fijiFailEnv "job-6" 1000 "a.png" "/tmp/gy"
      (initialResult fijiFailEnv "job-6" 1000) (by with_unfolding_all decide)⟩

/-- Modelled from the spec (§4.3 contract): locate the first sentinel
pair `ANALYSIS_RESULTS_START` … `ANALYSIS_RESULTS_END` (exact-match
tokens, one per line after whitespace trimming); within that span each
`key:value` line whose value parses as the expected numeric kind
contributes one field; without such a pair the result set is empty. -/
def specFirstSentinelParse (output : String) : ParsedOutput :=
  let ls := (splitLines output.data).map trimSpace
  if resultsStartToken ∈ ls then
    let afterStart := (ls.dropWhile (fun l => !(l == resultsStartToken))).tail
    if resultsEndToken ∈ afterStart then
      (afterStart.takeWhile (fun l => !(l == resultsEndToken))).foldl
        (fun st line => parseResultLine line st) ⟨[], 0⟩
    else ⟨[], 0⟩
  else ⟨[], 0⟩

/-- A sentinel line contributes nothing to the field state: the opening
token contains no colon. -/
theorem parseResultLine_start (st : ParsedOutput) :
    parseResultLine resultsStartToken st = st := by
  unfold parseResultLine
  rw [if_neg]
  intro h
  exact absurd h (by decide)

/-- Lines before the first sentinel are skipped by the scan loop while
the flag is down, provided none of them is a sentinel token. -/
theorem parseLoop_skip (pre ls : List (List Char)) (st : ParsedOutput)
    (h1 : resultsStartToken ∉ pre) (h2 : resultsEndToken ∉ pre) :
    parseLoop (pre ++ ls) false st = parseLoop ls false st := by
  induction pre with
  | nil => rfl
  | cons l rest ih =>
    have hl : ¬l = resultsStartToken := fun e => h1 (e ▸ List.mem_cons_self l rest)
    have he : ¬l = resultsEndToken := fun e => h2 (e ▸ List.mem_cons_self l rest)
    rw [List.cons_append, parseLoop, if_neg hl, if_neg he]
    simp only [Bool.false_eq_true, if_false]
    exact ih (fun hm => h1 (List.mem_cons_of_mem l hm))
      (fun hm => h2 (List.mem_cons_of_mem l hm))

/-- The opening sentinel raises the flag. -/
theorem parseLoop_after_start (rest : List (List Char)) (st : ParsedOutput) :
    parseLoop (resultsStartToken :: rest) false st = parseLoop rest true st := by
  rw [parseLoop, if_pos rfl]

/-- With the flag up and a closing sentinel ahead, the scan loop is the
fold of the per-line step over the lines before the first closing
sentinel. -/
theorem parseLoop_collect (rest : List (List Char)) (st : ParsedOutput)
    (h : resultsEndToken ∈ rest) :
    parseLoop rest true st =
      (rest.takeWhile (fun l => !(l == resultsEndToken))).foldl
        (fun s l => parseResultLine l s) st := by
  induction rest generalizing st with
  | nil => cases h
  | cons l r ih =>
    by_cases hs : l = resultsStartToken
    · subst hs
      rw [parseLoop, if_pos rfl]
      have hne : resultsEndToken ∈ r := by
        rcases List.mem_cons.mp h with h' | h'
        · exact absurd h' (by decide)
        · exact h'
      rw [ih _ hne, List.takeWhile_cons, if_pos (by decide), List.foldl_cons,
        parseResultLine_start]
    · by_cases he : l = resultsEndToken
      · subst he
        rw [parseLoop, if_neg (by decide), if_pos rfl, List.takeWhile_cons,
          if_neg (by simp), List.foldl_nil]
      · have hne : resultsEndToken ∈ r := by
          rcases List.mem_cons.mp h with h' | h'
          · exact absurd h'.symm he
          · exact h'
        have hbeq : (l == resultsEndToken) = false := by
          simpa using he
        rw [parseLoop, if_neg hs, if_neg he, if_pos rfl, ih _ hne,
          List.takeWhile_cons, if_pos (by simp [hbeq]), List.foldl_cons]

/-- Dropping up to the first opening sentinel leaves exactly the suffix
that starts with it, provided it does not occur earlier. -/
theorem dropWhile_until_start (pre rest : List (List Char))
    (h : resultsStartToken ∉ pre) :
    (pre ++ resultsStartToken :: rest).dropWhile
        (fun l => !(l == resultsStartToken)) =
      resultsStartToken :: rest := by
  induction pre with
  | nil => simp [List.dropWhile_cons]
  | cons l ls ih =>
    have hl : ¬l = resultsStartToken := fun e => h (e ▸ List.mem_cons_self l ls)
    have hbeq : (l == resultsStartToken) = false := by simpa using hl
    rw [List.cons_append, List.dropWhile_cons, if_pos (by simp [hbeq])]
    exact ih fun hm => h (List.mem_cons_of_mem l hm)

/-- The output on which the code's scan and the spec's first-sentinel-pair
reading disagree: a closing sentinel precedes the first opening one. -/
def endBeforeStartOutput : String :=
  "ANALYSIS_RESULTS_END\nANALYSIS_RESULTS_START\npurity_percentage:50\nANALYSIS_RESULTS_END"

/-- C2 counterexample: on an output whose first line is the closing
sentinel, the first sentinel pair still exists further down and its span
contains `purity_percentage:50`, so the claimed reading yields that
field, but the code's scan stops at the very first closing sentinel and
yields nothing. -/
theorem parser_first_pair_counterexample :
    (parseFijiResults endBeforeStartOutput).results.lookup "purity_percentage" =
      none ∧
    (specFirstSentinelParse endBeforeStartOutput).results.lookup "purity_percentage" =
      some 50 := by
  constructor
  · with_unfolding_all decide
  · with_unfolding_all decide

/-- C2 amended: the claimed first-sentinel-pair reading is correct
whenever no closing sentinel precedes the first opening sentinel and the
opening sentinel is eventually closed; in that case the parser's result
is exactly the field set of the first sentinel span, with unparseable
values silently dropped (an earlier closing sentinel instead stops the
scan and yields the empty set). -/
theorem parser_first_pair_amended (output : String)
    (pre rest : List (List Char))
    (hsplit : (splitLines output.data).map trimSpace =
      pre ++ resultsStartToken :: rest)
    (hps : resultsStartToken ∉ pre) (hpe : resultsEndToken ∉ pre)
    (hend : resultsEndToken ∈ rest) :
    parseFijiResults output = specFirstSentinelParse output := by
  unfold parseFijiResults specFirstSentinelParse
  rw [hsplit, parseLoop_skip pre _ _ hps hpe, parseLoop_after_start,
    parseLoop_collect _ _ hend]
  have hmem : resultsStartToken ∈ pre ++ resultsStartToken :: rest := by simp
  rw [if_pos hmem, dropWhile_until_start pre rest hps]
  simp only [List.tail_cons]
  rw [if_pos hend]

/-- A minimal well-formed sentinel block used to instantiate the amended
parser claim. -/
def pairOutput : String :=
  "ANALYSIS_RESULTS_START\npurity_percentage:50\nANALYSIS_RESULTS_END"

/-- C2 witness: the amended statement instantiated on a concrete
well-formed output (empty preamble, span closed by the end sentinel). -/
theorem parser_first_pair_amended_witness :
    ((splitLines pairOutput.data).map trimSpace =
        [] ++ resultsStartToken :: ["purity_percentage:50".data, resultsEndToken] ∧
      resultsStartToken ∉ ([] : List (List Char)) ∧
      resultsEndToken ∉ ([] : List (List Char)) ∧
      resultsEndToken ∈ ["purity_percentage:50".data, resultsEndToken]) ∧
    parseFijiResults pairOutput = specFirstSentinelParse pairOutput :=
  ⟨⟨by with_unfolding_all decide, by simp, by simp, by simp⟩,
    parser_first_pair_amended pairOutput []
      ["purity_percentage:50".data, resultsEndToken]
      (by with_unfolding_all decide) (by simp) (by simp) (by simp)⟩
